import Mathlib

/-!
Verification of the lifecycle manager in `browsermobproxy/server.py`.

The module contains two classes: `RemoteServer` (a liveness probe over a TCP
connect, plus a client factory) and `Server` (executable resolution, process
spawn, a bounded polling loop for startup, and idempotent, finalizer-backed
teardown). This file gives a shallow embedding of that code: each Python
method becomes a Lean function over explicit state, with the operating
system and network modelled as explicit environment records, and raised
exceptions modelled as an `Option PyError` component of the result.
-/

namespace BMProxy

/-- Exception kinds that appear in `server.py`: the single library error
`ProxyServerError` (carrying its message), plus the Python builtins the code
interacts with: `AttributeError` (caught by `stop`), `OSError` (the class of
`socket.error` and of errors from `os.killpg`). -/
inductive PyError where
  | proxyServerError (msg : String)
  | attributeError
  | osError
deriving DecidableEq

/-! ## RemoteServer._is_listening

`_is_listening` builds a TCP socket, sets a 1 second timeout, connects to
`(host, port)` and closes the socket, returning `True`; any `socket.error`
(the class that, in Python 3, also covers `socket.timeout`, connection
refusal and address resolution failures) is caught and mapped to `False`.
The environment decides how the `connect` call behaves. -/

/-- The kinds of `socket.error` a connect attempt can raise. -/
inductive SocketErr where
  | timeout
  | refused
  | gaierror
  | other
deriving DecidableEq

/-- Environment for one `_is_listening` call: `none` means the TCP connect
succeeds, `some e` means it raises the `socket.error` `e`. -/
structure SocketEnv where
  connectResult : Option SocketErr
deriving DecidableEq

/-- Observable socket operations performed by `_is_listening`. -/
inductive SockEvent where
  | create
  | settimeout (seconds : Rat)
  | connectAttempt (host : String) (port : Nat)
  | close
deriving DecidableEq

/-- `RemoteServer._is_listening` (server.py lines 47-55): the performed
socket operations paired with the outcome. When `connect` raises, `close`
is skipped and the handler returns `False`; the function itself never
raises, hence the `Except` value is always `Except.ok`. -/
def is_listeningSock (host : String) (port : Nat) (env : SocketEnv) :
    List SockEvent × Except PyError Bool :=
  match env.connectResult with
  | none =>
    ([SockEvent.create, SockEvent.settimeout 1, SockEvent.connectAttempt host port,
      SockEvent.close], Except.ok true)
  | some _ =>
    ([SockEvent.create, SockEvent.settimeout 1, SockEvent.connectAttempt host port],
      Except.ok false)

/-! ## Server.__init__ -/

/-- Python `str.endswith`, computed on the character lists so that the
kernel can evaluate it (the behaviour agrees with `String.endsWith`). -/
def strEndsWith (s suffixStr : String) : Bool :=
  suffixStr.data.isSuffixOf s.data

/-- Python `str.startswith`, computed on the character lists. -/
def strStartsWith (s preStr : String) : Bool :=
  preStr.data.isPrefixOf s.data

/-- Python `str.split(sep)` restricted to a one-character separator, as
used on the PATH variable: every occurrence of `sep` splits, empty pieces
are kept, and the empty string yields `[""]`. -/
def splitCharAux (sep : Char) : List Char → List Char → List String
  | [], acc => [⟨acc.reverse⟩]
  | c :: cs, acc =>
    if c = sep then ⟨acc.reverse⟩ :: splitCharAux sep cs []
    else splitCharAux sep cs (c :: acc)

/-- Split a string on a separator character. -/
def splitChar (s : String) (sep : Char) : List String :=
  splitCharAux sep s.data []

/-- Platform adaptation of the executable path (server.py lines 95-99): on
`platform.system() == "Windows"` a `.bat` suffix is appended when absent;
on every other platform the path is unchanged. -/
def adaptPath (system : String) (path : String) : String :=
  if system = "Windows" then
    if strEndsWith path ".bat" then path else path ++ ".bat"
  else path

/-- PATH-list separator (server.py lines 95-97): `;` on Windows, `:`
otherwise. -/
def pathVarSep (system : String) : Char :=
  if system = "Windows" then ';' else ':'

/-- Models `os.path.join(directory, path)` in the POSIX convention used by
the resolution loop: an absolute `path` wins; otherwise the parts are
joined with `/` unless `directory` is empty or already ends in `/`. -/
def joinPath (directory path : String) : String :=
  if strStartsWith path "/" then path
  else if directory = "" ∨ strEndsWith directory "/" then directory ++ path
  else directory ++ "/" ++ path

/-- Environment for `Server.__init__`: the platform name, the `PATH`
environment variable and the file-existence predicate `os.path.isfile`.
Existence is the only filesystem query the constructor makes; it never
tests executability. -/
structure InitEnv where
  system : String
  pathEnv : String
  isfile : String → Bool

/-- The scan over `os.environ["PATH"]` (server.py lines 101-105): true iff
some directory of the PATH-list contains a file named `path`. -/
def execOnPath (env : InitEnv) (path : String) : Bool :=
  (splitChar env.pathEnv (pathVarSep env.system)).any
    (fun d => env.isfile (joinPath d path))

/-- The message of the constructor error (server.py lines 108-109). -/
def notFoundMsg (path : String) : String :=
  "Browsermob-Proxy binary couldn\x27t be found in path provided: " ++ path

/-- The immutable configuration a successfully constructed `Server` holds. -/
structure ServerConfig where
  path : String
  host : String
  port : Nat
  proxyPortRange : String
  command : List String
deriving DecidableEq

/-- `Server.__init__` (server.py lines 84-122): adapt the path for the
platform, raise `ProxyServerError` when the adapted path is neither an
existing file nor present in some PATH directory, and otherwise record the
configuration and build the launch command (wrapped with `sh` on Darwin). -/
def serverInit (env : InitEnv) (path : String) (host : String) (port : Nat)
    (proxyPortRange : String) : Except PyError ServerConfig :=
  let p := adaptPath env.system path
  if !env.isfile p && !execOnPath env p then
    Except.error (PyError.proxyServerError (notFoundMsg p))
  else
    Except.ok
      { path := p, host := host, port := port, proxyPortRange := proxyPortRange,
        command := (if env.system = "Darwin" then ["sh"] else []) ++
          [p, "--port=" ++ toString port, "--proxyPortRange=" ++ proxyPortRange] }

/-! ## Server.__FinalizedServer and stop -/

/-- A tracked child process: its pid and its status as last materialised by
the operating system — `none` while running, `some c` once exited with
status `c` (negative on Unix when killed by a signal). -/
structure ProcHandle where
  pid : Nat
  status : Option Int
deriving DecidableEq

/-- How the `os.killpg(group_pid, signal.SIGINT)` step behaves: it succeeds,
it raises `AttributeError` (`os.killpg` absent on the platform — the case
the source comments on and catches), or it raises an `OSError` (for
example the process group is already gone, or permission is denied). -/
inductive KillpgOutcome where
  | ok
  | attrError
  | osError
deriving DecidableEq

/-- Platform behaviour of one `stop` call: whether `Popen.kill` is
unavailable and raises `AttributeError` (the Windows case the source
comments on), the exit status `wait()` observes after a successful kill,
and how the group signal behaves. -/
structure StopEnv where
  killRaisesAttr : Bool
  waitCode : Int
  killpg : KillpgOutcome
deriving DecidableEq

/-- The mutable state of `Server.__FinalizedServer`: the platform flag, the
tracked process (if any) and the open log file handle (if any), identified
by its path. -/
structure FinState where
  winEnv : Bool
  process : Option ProcHandle
  logFile : Option String
deriving DecidableEq

/-- `Server.__FinalizedServer.stop` (server.py lines 68-82). The kill block
runs only when a process is tracked and `poll()` returns `None`; inside it,
`kill`/`wait`/`killpg`/`process = None` run in order under a handler that
catches exactly `AttributeError`. An `OSError` from `os.killpg` therefore
propagates, with `self.process` still set (but exited, since `kill` and
`wait` already ran) and the log file not closed. On normal completion the
log file handle, when present, is closed and cleared. The second component
is the raised exception, `none` when `stop` returns normally. -/
def stopF (env : StopEnv) (s : FinState) : FinState × Option PyError :=
  let step1 : FinState × Option PyError :=
    match s.process with
    | none => (s, none)
    | some p =>
      match p.status with
      | some _ => (s, none)
      | none =>
        if env.killRaisesAttr then (s, none)
        else
          let exited : ProcHandle := { p with status := some env.waitCode }
          match env.killpg with
          | KillpgOutcome.ok => ({ s with process := none }, none)
          | KillpgOutcome.attrError => ({ s with process := some exited }, none)
          | KillpgOutcome.osError =>
            ({ s with process := some exited }, some PyError.osError)
  match step1.2 with
  | some e => (step1.1, some e)
  | none =>
    match step1.1.logFile with
    | none => (step1.1, none)
    | some _ => ({ step1.1 with logFile := none }, none)

/-- `Server.stop` (server.py lines 182-186) delegates to the finalized
helper. -/
def serverStop (env : StopEnv) (s : FinState) : FinState × Option PyError :=
  stopF env s

/-- True when a process is tracked and not known to have exited — the
situation `stop` would still act on. -/
def trackedAsRunning (s : FinState) : Bool :=
  match s.process with
  | some p => p.status.isNone
  | none => false

/-! ## Server.start -/

/-- The per-call options of `start` with their defaults (server.py lines
132-137): `log_path` defaults to `os.getcwd()`, `log_file` to
`server.log`, `retry_sleep` to `0.5`, `retry_count` to `60`. -/
structure StartOptions where
  log_path : String
  log_file : String
  retry_sleep : Rat
  retry_count : Nat
deriving DecidableEq

/-- The defaults of `start` for a given current working directory. -/
def defaultStartOptions (cwd : String) : StartOptions :=
  { log_path := cwd, log_file := "server.log", retry_sleep := 1/2, retry_count := 60 }

/-- The log file path `os.path.join(log_path, log_file)`. -/
def logName (opts : StartOptions) : String :=
  joinPath opts.log_path opts.log_file

/-- Observable steps of a `start` run. `openLog p` is `open(p, "w")` — mode
`w`, which truncates any existing content — assigned to
`self.fin.log_file`; `checkListening` is one `_is_listening()` call with
its result; `spawn` is the `Popen` call; `pollCheck` is one
`self.fin.process.poll()` call with its result; `sleep` is
`time.sleep(retry_sleep)`; `stopCall` is the `self.stop()` call made when
the retry budget is exhausted. -/
inductive Event where
  | openLog (path : String)
  | checkListening (result : Bool)
  | spawn (pid : Nat)
  | pollCheck (result : Option Int)
  | sleep (seconds : Rat)
  | stopCall
deriving DecidableEq

/-- How a `start` run ends: fell through the loop normally, raised an
exception, or (model artefact) ran out of fuel — the latter corresponds to
the Python loop still running, which for `retry_count = 0` can be forever. -/
inductive Outcome where
  | normal
  | raised (e : PyError)
  | fuelOut
deriving DecidableEq

/-- State, event trace and outcome of a `start` run. -/
structure RunResult where
  state : FinState
  trace : List Event
  outcome : Outcome
deriving DecidableEq

/-- Python truthiness of a `poll()` result, as tested by
`if self.fin.process.poll():` — `None` and `0` are falsy, every other
status is truthy. -/
def truthyPoll : Option Int → Bool
  | none => false
  | some c => c != 0

/-- CPython string form of an open text file handle, as interpolated into
the premature-exit message by `"...".format(self.fin.log_file)`; its
essential content is that it embeds the file path. -/
def fileStr (path : String) : String :=
  "<_io.TextIOWrapper name=\x27" ++ path ++ "\x27 mode=\x27w\x27 encoding=\x27UTF-8\x27>"

/-- The premature-exit message (server.py lines 158-161); note the source
has no space between the interpolated handle and `for`. -/
def startFailMsg (logFileRepr : String) : String :=
  "The Browsermob-Proxy server process failed to start. Check " ++ logFileRepr ++
    "for a helpful error message."

/-- The message raised when the retry budget is exhausted (server.py
line 168). -/
def cantConnectMsg : String := "Can\x27t connect to Browsermob-Proxy"

/-- The message raised when the port is already occupied (server.py
line 142). -/
def portInUseMsg (port : Nat) : String :=
  "Port already in use: " ++ toString port

/-- Environment of one `start` call: the result of the pre-spawn
`_is_listening` check, the pid `Popen` hands back, the results of the
in-loop `_is_listening` and `poll` calls (indexed by the loop counter
`count`), and the platform behaviour of the `stop` call made on
exhaustion. -/
structure StartEnv where
  preListening : Bool
  spawnPid : Nat
  listening : Nat → Bool
  pollResult : Nat → Option Int
  stopEnv : StopEnv

/-- The polling loop of `start` (server.py lines 149-168), with `count` the
loop counter and `fuel` a bound on the remaining iterations (any value at
least `retry_count - count` is exact for the claims below). Per iteration:
check `_is_listening`; if false, `poll()` the child — a truthy result
raises the premature-exit error at once; otherwise sleep `retry_sleep`,
increment `count`, and when `count` reaches `retry_count` call `stop()`
and raise the cannot-connect error. Each `poll()` call materialises the
observed status into the tracked handle, mirroring `Popen` caching the
return code. A missing process would make `None.poll()` raise
`AttributeError` in Python, modelled likewise. -/
def pollLoop (env : StartEnv) (retry_sleep : Rat) (retry_count : Nat)
    (logFileRepr : String) : Nat → Nat → FinState → RunResult
  | 0, _, s => ⟨s, [], Outcome.fuelOut⟩
  | fuel + 1, count, s =>
    if env.listening count then ⟨s, [Event.checkListening true], Outcome.normal⟩
    else
      match s.process with
      | none => ⟨s, [Event.checkListening false], Outcome.raised PyError.attributeError⟩
      | some p =>
        let polled := env.pollResult count
        let s1 : FinState := { s with process := some { p with status := polled } }
        if truthyPoll polled then
          ⟨s1, [Event.checkListening false, Event.pollCheck polled],
            Outcome.raised (PyError.proxyServerError (startFailMsg logFileRepr))⟩
        else
          let events := [Event.checkListening false, Event.pollCheck polled,
            Event.sleep retry_sleep]
          if count + 1 = retry_count then
            match stopF env.stopEnv s1 with
            | (s2, some e) => ⟨s2, events ++ [Event.stopCall], Outcome.raised e⟩
            | (s2, none) =>
              ⟨s2, events ++ [Event.stopCall],
                Outcome.raised (PyError.proxyServerError cantConnectMsg)⟩
          else
            let r := pollLoop env retry_sleep retry_count logFileRepr fuel (count + 1) s1
            ⟨r.state, events ++ r.trace, r.outcome⟩

/-- `Server.start` (server.py lines 124-168): open the log file for writing
and store the handle, then the port-in-use precondition check, then spawn
(recorded by its pid, initially running), then the polling loop. -/
def startF (cfg : ServerConfig) (env : StartEnv) (opts : StartOptions)
    (fuel : Nat) (s : FinState) : RunResult :=
  let ln := logName opts
  let s1 : FinState := { s with logFile := some ln }
  if env.preListening then
    ⟨s1, [Event.openLog ln, Event.checkListening true],
      Outcome.raised (PyError.proxyServerError (portInUseMsg cfg.port))⟩
  else
    let s2 : FinState := { s1 with process := some { pid := env.spawnPid, status := none } }
    let r := pollLoop env opts.retry_sleep opts.retry_count (fileStr ln) fuel 0 s2
    ⟨r.state, [Event.openLog ln, Event.checkListening false, Event.spawn env.spawnPid] ++
      r.trace, r.outcome⟩

/-- Number of `sleep` events in a trace. -/
def countSleeps (tr : List Event) : Nat :=
  tr.countP (fun e => match e with | Event.sleep _ => true | _ => false)

/-- The three events one fruitless loop iteration appends. -/
def loopBlock (retry_sleep : Rat) (polled : Option Int) : List Event :=
  [Event.checkListening false, Event.pollCheck polled, Event.sleep retry_sleep]

/-- The trace of `n` fruitless iterations in which the child stays
running (`poll()` returns `None` each time). -/
def exhaustTrace (retry_sleep : Rat) : Nat → List Event
  | 0 => []
  | n + 1 => loopBlock retry_sleep none ++ exhaustTrace retry_sleep n

/-! ## Shared concrete instances used by witnesses and counterexamples -/

/-- A configuration as produced by construction with all defaults on a
Unix platform. -/
def cfg0 : ServerConfig :=
  ⟨"browsermob-proxy", "localhost", 8080, "8081-8581",
    ["browsermob-proxy", "--port=8080", "--proxyPortRange=8081-8581"]⟩

/-- A freshly constructed finalizer state: nothing tracked. -/
def s0 : FinState := ⟨false, none, none⟩

/-- A benign stop environment: kill available, group signal succeeds. -/
def stopEnv0 : StopEnv := ⟨false, -9, KillpgOutcome.ok⟩

/-- Start options with a retry budget of one, for small concrete runs. -/
def opts1 : StartOptions := ⟨"/work", "server.log", 1/2, 1⟩

/-! ## Helper lemmas about stop -/

/-- When the group signal does not raise an `OSError`, `stop` raises
nothing and ends with the log handle closed and cleared. -/
theorem stopF_no_raise (env : StopEnv) (s : FinState)
    (h : env.killpg ≠ KillpgOutcome.osError) :
    (stopF env s).2 = none ∧ (stopF env s).1.logFile = none := by
  rcases s with ⟨w, _ | ⟨pid, _ | c⟩, _ | l⟩ <;>
    rcases hk : env.killRaisesAttr <;>
      rcases hpg : env.killpg <;>
        first
          | exact absurd hpg h
          | simp [stopF, hk, hpg]

/-- Provided the kill primitive is available, `stop` never leaves the
state tracking a running process. -/
theorem stopF_not_running (env : StopEnv) (s : FinState)
    (h : env.killRaisesAttr = false) :
    trackedAsRunning (stopF env s).1 = false := by
  rcases s with ⟨w, _ | ⟨pid, _ | c⟩, _ | l⟩ <;>
    rcases hpg : env.killpg <;>
      simp [stopF, trackedAsRunning, h, hpg]

/-! ## C3 -/

/-- C3 (amended): during `stop()` on a live process, an `AttributeError`
raised by the process-group-signal step (capability unavailable, the only
exception the handler names) is caught and swallowed, and `stop()` still
proceeds to close and clear the log file handle; this holds whenever the
group signal does not raise an `OSError`. -/
theorem stop_group_signal_attr_swallowed (env : StopEnv) (s : FinState)
    (h : env.killpg = KillpgOutcome.attrError) :
    (stopF env s).2 = none ∧ (stopF env s).1.logFile = none :=
  stopF_no_raise env s (by rw [h]; intro hc; cases hc)

/-- C3 counterexample: an `OSError` raised by `os.killpg` on a live
process is not caught: `stop()` propagates it and the log file handle is
neither closed nor cleared. -/
theorem stop_group_signal_osError_propagates :
    stopF ⟨false, -9, KillpgOutcome.osError⟩
        ⟨false, some ⟨7, none⟩, some "/work/server.log"⟩ =
      (⟨false, some ⟨7, some (-9)⟩, some "/work/server.log"⟩, some PyError.osError) := by
  decide

/-- C3 witness: the amended theorem applied to a live process on a
platform where the group signal raises `AttributeError`. -/
theorem stop_group_signal_attr_swallowed_witness :
    (stopF ⟨false, -9, KillpgOutcome.attrError⟩
      ⟨false, some ⟨7, none⟩, some "/work/server.log"⟩).2 = none :=
  (stop_group_signal_attr_swallowed ⟨false, -9, KillpgOutcome.attrError⟩
    ⟨false, some ⟨7, none⟩, some "/work/server.log"⟩ rfl).1

/-! ## C4 -/

/-- C4: `stop()` is idempotent. In every state in which no process is
tracked or the tracked process has already exited, `stop()` only closes
and clears a still-open log file handle and raises nothing; a second
`stop()` is a complete no-op; composing `stop()` with itself yields the
state of a single `stop()`; and `stop()` on a never-started server (no
process, no log handle) changes nothing and raises nothing. -/
theorem stop_idempotent (env : StopEnv) (s : FinState)
    (h : trackedAsRunning s = false) :
    serverStop env s = ({ s with logFile := none }, none) ∧
    serverStop env { s with logFile := none } = ({ s with logFile := none }, none) ∧
    (serverStop env (serverStop env s).1).1 = (serverStop env s).1 ∧
    serverStop env ⟨s.winEnv, none, none⟩ = (⟨s.winEnv, none, none⟩, none) := by
  rcases s with ⟨w, proc, lf⟩
  have hproc : proc = none ∨ ∃ pid c, proc = some ⟨pid, some c⟩ := by
    rcases proc with _ | ⟨pid, _ | c⟩
    · exact Or.inl rfl
    · simp [trackedAsRunning] at h
    · exact Or.inr ⟨pid, c, rfl⟩
  have key : ∀ l, serverStop env ⟨w, proc, l⟩ = (⟨w, proc, none⟩, none) := by
    intro l
    rcases hproc with h1 | ⟨pid, c, h1⟩ <;> subst h1 <;> rcases l with _ | l <;> rfl
  refine ⟨key lf, key none, ?_, rfl⟩
  rw [key lf, key none]

/-- C4 witness: a double `stop()` on a server whose `start()` was never
called (log handle open from a failed `start`, no process tracked). -/
theorem stop_idempotent_witness :
    serverStop stopEnv0 ⟨false, none, some "/work/server.log"⟩ =
      (⟨false, none, none⟩, none) :=
  (stop_idempotent stopEnv0 ⟨false, none, some "/work/server.log"⟩ rfl).1

/-! ## C5 -/

/-- C5: when `_is_listening()` is already true as `start()` begins, it
raises `ProxyServerError` with the port-in-use message naming the
configured port, no child process is spawned, and the run performed only
the log-file open and the one listening check. -/
theorem start_port_in_use (cfg : ServerConfig) (env : StartEnv)
    (opts : StartOptions) (fuel : Nat) (s : FinState)
    (h : env.preListening = true) :
    startF cfg env opts fuel s =
      ⟨{ s with logFile := some (logName opts) },
        [Event.openLog (logName opts), Event.checkListening true],
        Outcome.raised (PyError.proxyServerError (portInUseMsg cfg.port))⟩ ∧
    (∀ pid, Event.spawn pid ∉ (startF cfg env opts fuel s).trace) ∧
    (∃ pre, portInUseMsg cfg.port = pre ++ toString cfg.port) := by
  have h1 : startF cfg env opts fuel s =
      ⟨{ s with logFile := some (logName opts) },
        [Event.openLog (logName opts), Event.checkListening true],
        Outcome.raised (PyError.proxyServerError (portInUseMsg cfg.port))⟩ := by
    simp [startF, h]
  refine ⟨h1, ?_, ⟨"Port already in use: ", rfl⟩⟩
  intro pid
  rw [h1]
  simp

/-- C5 witness: the theorem at a concrete configuration and environment
in which the port is already occupied. -/
theorem start_port_in_use_witness :
    startF cfg0 ⟨true, 7, fun _ => false, fun _ => none, stopEnv0⟩ opts1 1 s0 =
      ⟨⟨false, none, some "/work/server.log"⟩,
        [Event.openLog "/work/server.log", Event.checkListening true],
        Outcome.raised (PyError.proxyServerError "Port already in use: 8080")⟩ :=
  ((start_port_in_use cfg0 ⟨true, 7, fun _ => false, fun _ => none, stopEnv0⟩
    opts1 1 s0 rfl).1).trans (by decide)

/-! ## C7 -/

/-- C7: construction raises `ProxyServerError` exactly when the
platform-adapted executable path is not itself an existing file and no
directory of the PATH-list contains a file of that name; the check
consults only the existence predicate `isfile`, and whenever the
condition fails construction returns the configuration instead of
raising. -/
theorem serverInit_raises_iff (env : InitEnv) (path host pr : String) (port : Nat) :
    ((∃ e, serverInit env path host port pr = Except.error e) ↔
      (env.isfile (adaptPath env.system path) = false ∧
        ∀ d ∈ splitChar env.pathEnv (pathVarSep env.system),
          env.isfile (joinPath d (adaptPath env.system path)) = false)) ∧
    (¬ (env.isfile (adaptPath env.system path) = false ∧
        ∀ d ∈ splitChar env.pathEnv (pathVarSep env.system),
          env.isfile (joinPath d (adaptPath env.system path)) = false) →
      ∃ cfg, serverInit env path host port pr = Except.ok cfg) := by
  have hiff : execOnPath env (adaptPath env.system path) = false ↔
      ∀ d ∈ splitChar env.pathEnv (pathVarSep env.system),
        env.isfile (joinPath d (adaptPath env.system path)) = false := by
    simp [execOnPath]
  cases hf : env.isfile (adaptPath env.system path) with
  | false =>
    cases hp : execOnPath env (adaptPath env.system path) with
    | false =>
      constructor
      · constructor
        · intro _
          exact ⟨rfl, hiff.mp hp⟩
        · intro _
          exact ⟨PyError.proxyServerError (notFoundMsg (adaptPath env.system path)),
            by simp [serverInit, hf, hp]⟩
      · intro hcon
        exact absurd ⟨rfl, hiff.mp hp⟩ hcon
    | true =>
      constructor
      · constructor
        · intro ⟨e, he⟩
          simp [serverInit, hf, hp] at he
        · intro ⟨_, hall⟩
          rw [hiff.mpr hall] at hp
          cases hp
      · intro _
        exact ⟨{ path := adaptPath env.system path, host := host, port := port,
                 proxyPortRange := pr,
                 command := (if env.system = "Darwin" then ["sh"] else []) ++
                   [adaptPath env.system path, "--port=" ++ toString port,
                     "--proxyPortRange=" ++ pr] },
          by simp [serverInit, hf, hp]⟩
  | true =>
    constructor
    · constructor
      · intro ⟨e, he⟩
        simp [serverInit, hf] at he
      · intro ⟨h1, _⟩
        simp at h1
    · intro _
      exact ⟨{ path := adaptPath env.system path, host := host, port := port,
               proxyPortRange := pr,
               command := (if env.system = "Darwin" then ["sh"] else []) ++
                 [adaptPath env.system path, "--port=" ++ toString port,
                   "--proxyPortRange=" ++ pr] },
        by simp [serverInit, hf]⟩

/-- C7 witness: with the adapted path present as a file, construction
succeeds; with it absent and an empty PATH not containing it,
construction raises. -/
theorem serverInit_raises_iff_witness :
    ∃ cfg, serverInit ⟨"Linux", "", fun q => q = "/opt/bmp/bin/browsermob-proxy"⟩
      "/opt/bmp/bin/browsermob-proxy" "localhost" 8080 "8081-8581" = Except.ok cfg :=
  (serverInit_raises_iff ⟨"Linux", "", fun q => q = "/opt/bmp/bin/browsermob-proxy"⟩
    "/opt/bmp/bin/browsermob-proxy" "localhost" "8081-8581" 8080).2 (by decide)

/-! ## C8 -/

/-- C8: `_is_listening` attempts a TCP connect to the given host and port
after setting a 1 second timeout, and returns a boolean without ever
raising: the result is `Except.ok` in every environment, and every kind
of `socket.error` the connect can raise yields the value `false`. -/
theorem is_listening_total (host : String) (port : Nat) (env : SocketEnv)
    (e : SocketErr) :
    (∃ b, (is_listeningSock host port env).2 = Except.ok b) ∧
    (is_listeningSock host port ⟨some e⟩).2 = Except.ok false ∧
    SockEvent.settimeout 1 ∈ (is_listeningSock host port env).1 ∧
    SockEvent.connectAttempt host port ∈ (is_listeningSock host port env).1 := by
  obtain ⟨cr⟩ := env
  cases cr <;> simp [is_listeningSock]

/-! ## C9 -/

/-- C9: on the Windows platform the constructor appends `.bat` exactly
when the path does not already end in `.bat` and the PATH-list separator
is `;`; on every other platform the path is unchanged and the separator
is `:`; in particular `proxy` becomes `proxy.bat` on Windows and stays
`proxy` elsewhere. -/
theorem adaptPath_platform (system p q : String) :
    (strEndsWith p ".bat" = false → adaptPath "Windows" p = p ++ ".bat") ∧
    (strEndsWith p ".bat" = true → adaptPath "Windows" p = p) ∧
    pathVarSep "Windows" = ';' ∧
    (system ≠ "Windows" → adaptPath system q = q ∧ pathVarSep system = ':') ∧
    adaptPath "Windows" "proxy" = "proxy.bat" ∧
    (system ≠ "Windows" → adaptPath system "proxy" = "proxy") := by
  refine ⟨?_, ?_, rfl, ?_, by decide, ?_⟩
  · intro h; simp [adaptPath, h]
  · intro h; simp [adaptPath, h]
  · intro h; exact ⟨by simp [adaptPath, h], by simp [pathVarSep, h]⟩
  · intro h; simp [adaptPath, h]

/-- C9 witness: the path `proxy` on a non-Windows platform. -/
theorem adaptPath_platform_witness : adaptPath "Linux" "proxy" = "proxy" :=
  (adaptPath_platform "Linux" "proxy" "proxy").2.2.2.2.2 (by decide)

/-! ## C10 -/

/-- C10: every `start()` run opens (and thereby truncates, mode `w`) the
log file at `log_path/log_file` and stores the handle before the
port-in-use check, so the trace always begins with the open followed by
the listening check; when the check raises the port-in-use error the
state still holds the open handle; a later `stop()` on that state (no
process having been spawned) closes and clears it without raising. -/
theorem start_opens_log_before_check (cfg : ServerConfig) (env : StartEnv)
    (opts : StartOptions) (fuel : Nat) (s : FinState) (se : StopEnv) :
    (∃ rest, (startF cfg env opts fuel s).trace =
      Event.openLog (logName opts) :: Event.checkListening env.preListening :: rest) ∧
    (env.preListening = true →
      (startF cfg env opts fuel s).state.logFile = some (logName opts) ∧
      (startF cfg env opts fuel s).outcome =
        Outcome.raised (PyError.proxyServerError (portInUseMsg cfg.port))) ∧
    (s.process = none →
      stopF se { s with logFile := some (logName opts) } =
        ({ s with logFile := none }, none)) := by
  refine ⟨?_, ?_, ?_⟩
  · cases h : env.preListening
    · refine ⟨Event.spawn env.spawnPid ::
        (pollLoop env opts.retry_sleep opts.retry_count (fileStr (logName opts)) fuel 0
          { { s with logFile := some (logName opts) } with
              process := some { pid := env.spawnPid, status := none } }).trace, ?_⟩
      simp [startF, h]
    · exact ⟨[], by simp [startF, h]⟩
  · intro h
    simp [startF, h]
  · intro h
    rcases s with ⟨w, proc, lf⟩
    simp only at h
    subst h
    rfl

/-- C10 witness: the port-in-use run leaves the log handle open and
stored. -/
theorem start_opens_log_before_check_witness :
    (startF cfg0 ⟨true, 7, fun _ => false, fun _ => none, stopEnv0⟩ opts1 1
      s0).state.logFile = some "/work/server.log" :=
  ((start_opens_log_before_check cfg0 ⟨true, 7, fun _ => false, fun _ => none, stopEnv0⟩
    opts1 1 s0 stopEnv0).2.1 rfl).1

/-! ## C1 -/

/-- C1 (amended): on any polling-loop iteration on which the child has
already exited with a nonzero status, `start()` fails immediately with the
premature-exit `ProxyServerError`: the iteration contributes no sleep, no
further retry and no stop call, and the message embeds the log file path.
An exit status of 0 is not covered: the source tests `poll()` for
truthiness, so a child that exited with status 0 is treated as still
starting. -/
theorem pollLoop_exit_nonzero_raises (env : StartEnv) (retry_sleep : Rat)
    (retry_count : Nat) (ln : String) (fuel count : Nat) (s : FinState)
    (p : ProcHandle) (ec : Int) (hL : env.listening count = false)
    (hp : s.process = some p) (hP : env.pollResult count = some ec)
    (hec : ec ≠ 0) :
    pollLoop env retry_sleep retry_count (fileStr ln) (fuel + 1) count s =
      ⟨{ s with process := some { p with status := some ec } },
        [Event.checkListening false, Event.pollCheck (some ec)],
        Outcome.raised (PyError.proxyServerError (startFailMsg (fileStr ln)))⟩ ∧
    (∃ pre post, startFailMsg (fileStr ln) = pre ++ ln ++ post) ∧
    countSleeps [Event.checkListening false, Event.pollCheck (some ec)] = 0 := by
  refine ⟨?_, ?_, rfl⟩
  · have ht : truthyPoll (some ec) = true := by
      simp [truthyPoll, hec]
    simp [pollLoop, hL, hp, hP, ht]
  · refine ⟨"The Browsermob-Proxy server process failed to start. Check " ++
        "<_io.TextIOWrapper name=\x27",
      "\x27 mode=\x27w\x27 encoding=\x27UTF-8\x27>" ++ "for a helpful error message.", ?_⟩
    simp [startFailMsg, fileStr, String.append_assoc]
    rw [← String.append_assoc]
    congr 1

/-- C1 counterexample: a child that has already exited with status 0 on
every iteration is not detected — the loop sleeps through its whole
budget (here two sleeps) and ends with the cannot-connect error, not the
immediate premature-exit error the claim requires for any exit status. -/
theorem pollLoop_exit_zero_not_detected :
    (pollLoop ⟨false, 7, fun _ => false, fun _ => some 0, stopEnv0⟩ (1/2) 2
        (fileStr "/work/server.log") 3 0
        ⟨false, some ⟨7, none⟩, some "/work/server.log"⟩).outcome =
      Outcome.raised (PyError.proxyServerError cantConnectMsg) ∧
    (pollLoop ⟨false, 7, fun _ => false, fun _ => some 0, stopEnv0⟩ (1/2) 2
        (fileStr "/work/server.log") 3 0
        ⟨false, some ⟨7, none⟩, some "/work/server.log"⟩).outcome ≠
      Outcome.raised
        (PyError.proxyServerError (startFailMsg (fileStr "/work/server.log"))) ∧
    countSleeps (pollLoop ⟨false, 7, fun _ => false, fun _ => some 0, stopEnv0⟩ (1/2) 2
        (fileStr "/work/server.log") 3 0
        ⟨false, some ⟨7, none⟩, some "/work/server.log"⟩).trace = 2 := by
  decide

/-- C1 witness: the amended theorem at a concrete iteration with exit
status 3. -/
theorem pollLoop_exit_nonzero_raises_witness :
    pollLoop ⟨false, 7, fun _ => false, fun _ => some 3, stopEnv0⟩ (1/2) 60
        (fileStr "/work/server.log") 60 0
        ⟨false, some ⟨7, none⟩, some "/work/server.log"⟩ =
      ⟨⟨false, some ⟨7, some 3⟩, some "/work/server.log"⟩,
        [Event.checkListening false, Event.pollCheck (some 3)],
        Outcome.raised
          (PyError.proxyServerError (startFailMsg (fileStr "/work/server.log")))⟩ :=
  (pollLoop_exit_nonzero_raises ⟨false, 7, fun _ => false, fun _ => some 3, stopEnv0⟩
    (1/2) 60 "/work/server.log" 59 0 ⟨false, some ⟨7, none⟩, some "/work/server.log"⟩
    ⟨7, none⟩ 3 rfl rfl rfl (by decide)).1

/-! ## C2 -/

/-- If an error is raised anywhere in the polling loop and the kill
primitive is available, the resulting state does not track a running
process. -/
theorem pollLoop_raised_not_running (env : StartEnv) (rs : Rat) (rc : Nat)
    (lr : String) (h : env.stopEnv.killRaisesAttr = false) :
    ∀ (fuel count : Nat) (s : FinState) (e : PyError),
      (pollLoop env rs rc lr fuel count s).outcome = Outcome.raised e →
      trackedAsRunning (pollLoop env rs rc lr fuel count s).state = false := by
  intro fuel
  induction fuel with
  | zero =>
    intro count s e he
    simp [pollLoop] at he
  | succ fuel ih =>
    intro count s e he
    cases hL : env.listening count with
    | true => simp [pollLoop, hL] at he
    | false =>
      cases hproc : s.process with
      | none => simp [pollLoop, hL, hproc, trackedAsRunning]
      | some p =>
        cases ht : truthyPoll (env.pollResult count) with
        | true =>
          have hnone : (env.pollResult count).isNone = false := by
            cases hpr : env.pollResult count
            · rw [hpr] at ht; simp [truthyPoll] at ht
            · simp
          simp [pollLoop, hL, hproc, ht, trackedAsRunning, hnone]
        | false =>
          by_cases hcnt : count + 1 = rc
          · rcases hst : stopF env.stopEnv
                { s with process := some { p with status := env.pollResult count } }
              with ⟨s2, e2⟩
            have hrun := stopF_not_running env.stopEnv
              { s with process := some { p with status := env.pollResult count } } h
            rw [hst] at hrun
            cases e2 <;> simp [pollLoop, hL, hproc, ht, hcnt, hst] <;> exact hrun
          · simp only [pollLoop, hL, hproc, ht, hcnt] at he ⊢
            simp at he ⊢
            exact ih _ _ e he

/-- C2 (amended): every error path of `start()` — port in use, premature
child exit, retry budget exhausted — ends with the state not tracking a
running process, provided `start()` began without one and the kill
primitive is available (`Popen.kill` does not raise `AttributeError`).
When kill is unavailable, the swallowed `AttributeError` can leave the
process running while the error is raised. -/
theorem start_error_not_running (cfg : ServerConfig) (env : StartEnv)
    (opts : StartOptions) (fuel : Nat) (s : FinState) (e : PyError)
    (hkill : env.stopEnv.killRaisesAttr = false)
    (hs : trackedAsRunning s = false)
    (he : (startF cfg env opts fuel s).outcome = Outcome.raised e) :
    trackedAsRunning (startF cfg env opts fuel s).state = false := by
  cases hpre : env.preListening with
  | true =>
    simp only [startF, hpre] at he ⊢
    simp only [trackedAsRunning] at hs ⊢
    simpa using hs
  | false =>
    simp only [startF, hpre] at he ⊢
    simp at he ⊢
    exact pollLoop_raised_not_running env _ _ _ hkill fuel 0 _ e he

/-- C2 counterexample: on a platform where `Popen.kill` raises
`AttributeError` (swallowed by `stop()`), the exhausted-budget path
raises the cannot-connect `ProxyServerError` while the spawned process is
still tracked and running — the Starting state transitions to Failed
without the process having been torn down. -/
theorem start_error_running_when_kill_unavailable :
    (startF cfg0 ⟨false, 7, fun _ => false, fun _ => none, ⟨true, 0, KillpgOutcome.ok⟩⟩
        opts1 1 ⟨true, none, none⟩).outcome =
      Outcome.raised (PyError.proxyServerError cantConnectMsg) ∧
    trackedAsRunning (startF cfg0
        ⟨false, 7, fun _ => false, fun _ => none, ⟨true, 0, KillpgOutcome.ok⟩⟩
        opts1 1 ⟨true, none, none⟩).state = true := by
  decide

/-- C2 witness: the amended theorem on the premature-exit error path. -/
theorem start_error_not_running_witness :
    trackedAsRunning (startF cfg0 ⟨false, 7, fun _ => false, fun _ => some 3, stopEnv0⟩
        opts1 1 s0).state = false :=
  start_error_not_running cfg0 ⟨false, 7, fun _ => false, fun _ => some 3, stopEnv0⟩
    opts1 1 s0 (PyError.proxyServerError (startFailMsg (fileStr "/work/server.log")))
    rfl rfl (by decide)

/-! ## C6 -/

/-- When the proxy never listens and the child never registers as exited,
the loop runs all remaining iterations, calls `stop()` and — provided the
group signal raises no `OSError` — raises the cannot-connect error; the
trace is one block of check, poll and sleep per iteration followed by the
stop call. -/
theorem pollLoop_exhaust (env : StartEnv) (rs : Rat) (rc : Nat) (lr : String)
    (hL : ∀ i, env.listening i = false) (hP : ∀ i, env.pollResult i = none)
    (hpg : env.stopEnv.killpg ≠ KillpgOutcome.osError) :
    ∀ (fuel count : Nat) (s : FinState) (p : ProcHandle),
      s.process = some p → count < rc → rc ≤ count + fuel →
      pollLoop env rs rc lr fuel count s =
        ⟨(stopF env.stopEnv { s with process := some { p with status := none } }).1,
          exhaustTrace rs (rc - count) ++ [Event.stopCall],
          Outcome.raised (PyError.proxyServerError cantConnectMsg)⟩ := by
  intro fuel
  induction fuel with
  | zero =>
    intro count s p hp h1 h2
    omega
  | succ fuel ih =>
    intro count s p hp h1 h2
    have hL' := hL count
    have hP' := hP count
    by_cases hcnt : count + 1 = rc
    · have hrt : rc - count = 1 := by omega
      rcases hst : stopF env.stopEnv { s with process := some { p with status := none } }
        with ⟨s2, e2⟩
      have he2 : e2 = none := by
        have hx := (stopF_no_raise env.stopEnv
          { s with process := some { p with status := none } } hpg).1
        rw [hst] at hx
        exact hx
      subst he2
      simp [pollLoop, hL', hp, hP', truthyPoll, hcnt, hst, hrt, exhaustTrace, loopBlock]
    · have h1' : count + 1 < rc := by omega
      have h2' : rc ≤ count + 1 + fuel := by omega
      have ihx := ih (count + 1) { s with process := some { p with status := none } }
        { p with status := none } rfl h1' h2'
      have hrt : rc - count = (rc - (count + 1)) + 1 := by omega
      simp [pollLoop, hL', hp, hP', truthyPoll, hcnt, ihx, hrt, exhaustTrace, loopBlock]

/-- The exhaustion trace of `n` iterations holds exactly `n` sleeps. -/
theorem countSleeps_exhaustTrace (rs : Rat) :
    ∀ n, countSleeps (exhaustTrace rs n) = n := by
  intro n
  induction n with
  | zero => rfl
  | succ n ih =>
    simp [exhaustTrace, loopBlock, countSleeps, List.countP_append, List.countP_cons]
      at ih ⊢
    omega

/-- Every sleep in the exhaustion trace sleeps the configured duration. -/
theorem sleep_mem_exhaustTrace (rs d : Rat) :
    ∀ n, Event.sleep d ∈ exhaustTrace rs n → d = rs := by
  intro n
  induction n with
  | zero =>
    intro h
    simp [exhaustTrace] at h
  | succ n ih =>
    intro h
    simp [exhaustTrace, loopBlock] at h
    rcases h with h | h
    · exact h
    · exact ih h

/-- C6 (amended): when the proxy never starts listening and the child
never registers as exited, `start()` runs exactly `retry_count`
iterations, each contributing one `retry_sleep` sleep, then calls
`stop()` (the last event of the trace) and — provided the stop call
itself raises nothing, i.e. the group signal raises no `OSError` — raises
the `ProxyServerError` whose message starts with the cannot-connect
phrase; the defaults are a half-second sleep and a budget of 60. If the
group signal raises an `OSError`, that error propagates instead. -/
theorem start_retry_exhausted (cfg : ServerConfig) (env : StartEnv)
    (opts : StartOptions) (s : FinState) (cwd : String)
    (hpre : env.preListening = false)
    (hL : ∀ i, env.listening i = false)
    (hP : ∀ i, env.pollResult i = none)
    (hpg : env.stopEnv.killpg ≠ KillpgOutcome.osError)
    (hrc : 1 ≤ opts.retry_count) :
    (startF cfg env opts opts.retry_count s).outcome =
      Outcome.raised (PyError.proxyServerError cantConnectMsg) ∧
    countSleeps (startF cfg env opts opts.retry_count s).trace = opts.retry_count ∧
    (startF cfg env opts opts.retry_count s).trace.getLast? = some Event.stopCall ∧
    (∀ d, Event.sleep d ∈ (startF cfg env opts opts.retry_count s).trace →
      d = opts.retry_sleep) ∧
    cantConnectMsg = "Can\x27t connect" ++ " to Browsermob-Proxy" ∧
    (defaultStartOptions cwd).retry_sleep = 1/2 ∧
    (defaultStartOptions cwd).retry_count = 60 := by
  have hrun := pollLoop_exhaust env opts.retry_sleep opts.retry_count
    (fileStr (logName opts)) hL hP hpg opts.retry_count 0
    { { s with logFile := some (logName opts) } with
        process := some { pid := env.spawnPid, status := none } }
    { pid := env.spawnPid, status := none } rfl (by omega) (by omega)
  have hstart : startF cfg env opts opts.retry_count s =
      ⟨(stopF env.stopEnv
          { { { s with logFile := some (logName opts) } with
              process := some { pid := env.spawnPid, status := none } } with
            process := some { pid := env.spawnPid, status := none } }).1,
        [Event.openLog (logName opts), Event.checkListening false,
          Event.spawn env.spawnPid] ++
          (exhaustTrace opts.retry_sleep (opts.retry_count - 0) ++ [Event.stopCall]),
        Outcome.raised (PyError.proxyServerError cantConnectMsg)⟩ := by
    simp only [startF, hpre, Bool.false_eq_true, if_false, hrun]
  refine ⟨?_, ?_, ?_, ?_, rfl, rfl, rfl⟩
  · rw [hstart]
  · rw [hstart]
    have hcs := countSleeps_exhaustTrace opts.retry_sleep (opts.retry_count - 0)
    simp [countSleeps, List.countP_append, List.countP_cons] at hcs ⊢
    omega
  · rw [hstart]
    show (_ ++ (exhaustTrace opts.retry_sleep (opts.retry_count - 0) ++
      [Event.stopCall])).getLast? = some Event.stopCall
    rw [← List.append_assoc]
    exact List.getLast?_concat _
  · intro d hd
    rw [hstart] at hd
    simp at hd
    exact sleep_mem_exhaustTrace opts.retry_sleep d _ hd

/-- C6 counterexample: an invocation in which the proxy never listens and
the child never registers as exited, but the group signal of the
exhaustion `stop()` raises an `OSError`: `start()` then propagates that
`OSError` instead of raising the cannot-connect `ProxyServerError` the
claim promises. -/
theorem start_retry_exhausted_osError_counterexample :
    (startF cfg0
        ⟨false, 7, fun _ => false, fun _ => none, ⟨false, -9, KillpgOutcome.osError⟩⟩
        opts1 1 s0).outcome = Outcome.raised PyError.osError ∧
    Outcome.raised PyError.osError ≠
      Outcome.raised (PyError.proxyServerError cantConnectMsg) := by
  decide

/-- C6 witness: the amended theorem at a concrete budget of one. -/
theorem start_retry_exhausted_witness :
    (startF cfg0 ⟨false, 7, fun _ => false, fun _ => none, stopEnv0⟩ opts1
        opts1.retry_count s0).outcome =
      Outcome.raised (PyError.proxyServerError cantConnectMsg) :=
  (start_retry_exhausted cfg0 ⟨false, 7, fun _ => false, fun _ => none, stopEnv0⟩
    opts1 s0 "/work" rfl (fun _ => rfl) (fun _ => rfl) (by decide) (by decide)).1

end BMProxy
